import Mathlib

/-!
Verification development for the ticktick-mcp repository.

The definitions below are a shallow embedding of the Python sources:
* `src/ticktick_mcp/src/ticktick_client.py` (validators, transport),
* `src/ticktick_mcp/src/tools/tasks.py` (date predicates, scanner, batch creation),
* `src/ticktick_mcp/src/tools/gtd.py` (GTD filters),
* `src/ticktick_mcp/src/utils/formatting.py` (format_task / format_project).

Python dictionaries are embedded as structures with `Option` fields (a missing
key is `none`; Python truthiness of strings is `none` or the empty string).
Ambient wall-clock time (`datetime.now(timezone.utc)`) is passed explicitly as
a `UTCTime` value.  Network effects are passed explicitly as oracle functions
and every call is recorded in a log, so that call counts are provable facts.
-/

/-! ## Calendar arithmetic -/

/-- Gregorian leap-year test (as used by Python's `datetime`). -/
def isLeapYear (y : Nat) : Bool :=
  (y % 4 == 0 && y % 100 != 0) || y % 400 == 0

/-- Number of days in a month of the proleptic Gregorian calendar. -/
def daysInMonth (y m : Nat) : Nat :=
  if m = 2 then (if isLeapYear y then 29 else 28)
  else if m = 4 ∨ m = 6 ∨ m = 9 ∨ m = 11 then 30
  else 31

/-- Day number of a civil date (days since 1970-01-01, Howard Hinnant's
`days_from_civil`); embeds Python `date` values, whose ordering and equality
coincide with the day number's. -/
def daysFromCivil (y m d : Nat) : Int :=
  let yy := if m ≤ 2 then y - 1 else y
  let era := yy / 400
  let yoe := yy % 400
  let mp := if m > 2 then m - 3 else m + 9
  let doy := (153 * mp + 2) / 5 + (d - 1)
  let doe := yoe * 365 + yoe / 4 - yoe / 100 + doy
  (era * 146097 + doe : Int) - 719468

def MICROS_PER_DAY : Int := 86400000000

/-- An aware `datetime` as produced by `datetime.strptime(..., "%Y-%m-%dT%H:%M:%S.%f%z")`:
the civil fields as written in the string plus the UTC offset in seconds. -/
structure DateTimeTZ where
  year : Nat
  month : Nat
  day : Nat
  hour : Nat
  minute : Nat
  second : Nat
  micro : Nat
  offsetSeconds : Int
deriving Repr, DecidableEq

/-- Microseconds of the *written* (local) civil time since the epoch,
ignoring the offset — this is what `.date()`/naive field access sees. -/
def localMicros (dt : DateTimeTZ) : Int :=
  daysFromCivil dt.year dt.month dt.day * MICROS_PER_DAY +
    (((dt.hour * 3600 + dt.minute * 60 + dt.second) * 1000000 + dt.micro : Nat) : Int)

/-- Absolute instant (UTC microseconds since the epoch) of an aware datetime;
embeds Python's comparison of aware `datetime` values. -/
def instantMicros (dt : DateTimeTZ) : Int :=
  localMicros dt - dt.offsetSeconds * 1000000

/-- The current UTC time, `datetime.now(timezone.utc)`, passed explicitly. -/
structure UTCTime where
  year : Nat
  month : Nat
  day : Nat
  hour : Nat
  minute : Nat
  second : Nat
  micro : Nat
deriving Repr, DecidableEq

def utcMicros (now : UTCTime) : Int :=
  daysFromCivil now.year now.month now.day * MICROS_PER_DAY +
    (((now.hour * 3600 + now.minute * 60 + now.second) * 1000000 + now.micro : Nat) : Int)

/-- `datetime.now(timezone.utc).date()` as a day number. -/
def utcDayNumber (now : UTCTime) : Int :=
  daysFromCivil now.year now.month now.day

/-! ## Embedding of `datetime.strptime(s, "%Y-%m-%dT%H:%M:%S.%f%z")`

CPython's `strptime` compiles the format to a regular expression
(case-insensitively) and then builds a `datetime`, which additionally
validates the day of month and rejects seconds ≥ 60 and offsets of 24 hours
or more with a `ValueError`.  The token regexes are:
`%Y` = 4 digits, `%m` = `1[0-2]|0[1-9]|[1-9]`, `%d` = `3[01]|[12]\d|0[1-9]|[1-9]`,
`%H` = `2[0-3]|[0-1]\d|\d`, `%M`/`%S` = two digits (seconds up to 61) or one,
`%f` = 1–6 digits, `%z` = `[+-]\d\d:?[0-5]\d(:?[0-5]\d...)?|Z`.

Two-digit alternatives are tried first; falling back to the one-digit
alternative can only help when the following literal matches the second
character, and every following literal here is a non-digit while the second
character is a digit, so a deterministic longest-first parse is faithful.
Offset forms with inconsistent colon use raise `ValueError` inside
`_strptime` and fractional offset seconds never occur in this repository,
so the offset grammar below is the consistent-colon subset. -/

def digitVal (c : Char) : Option Nat :=
  if c.isDigit then some (c.toNat - 48) else none

/-- Two digits forming a value in `[lo2, hi2]`, or a single digit in
`[lo1, hi1]` when the next character is not a digit. -/
def parseField (lo2 hi2 lo1 hi1 : Nat) : List Char → Option (Nat × List Char)
  | c1 :: c2 :: rest =>
    match digitVal c1, digitVal c2 with
    | some a, some b =>
      let v := 10 * a + b
      if lo2 ≤ v ∧ v ≤ hi2 then some (v, rest) else none
    | some a, none =>
      if lo1 ≤ a ∧ a ≤ hi1 then some (a, c2 :: rest) else none
    | none, _ => none
  | [c1] =>
    match digitVal c1 with
    | some a => if lo1 ≤ a ∧ a ≤ hi1 then some (a, []) else none
    | none => none
  | [] => none

/-- Exactly four digits (`%Y`). -/
def parse4 : List Char → Option (Nat × List Char)
  | a :: b :: c :: d :: rest =>
    match digitVal a, digitVal b, digitVal c, digitVal d with
    | some w, some x, some y, some z => some (1000 * w + 100 * x + 10 * y + z, rest)
    | _, _, _, _ => none
  | _ => none

def parseLit (c : Char) : List Char → Option (List Char)
  | x :: rest => if x = c then some rest else none
  | [] => none

/-- The literal `T` of the format, matched case-insensitively by `strptime`. -/
def parseSepT : List Char → Option (List Char)
  | x :: rest => if x = 'T' ∨ x = 't' then some rest else none
  | [] => none

/-- Exactly two digits forming a value in `[lo, hi]`. -/
def parse2exact (lo hi : Nat) : List Char → Option (Nat × List Char)
  | c1 :: c2 :: rest =>
    match digitVal c1, digitVal c2 with
    | some a, some b =>
      let v := 10 * a + b
      if lo ≤ v ∧ v ≤ hi then some (v, rest) else none
    | _, _ => none
  | _ => none

/-- Up to `n` leading digits. -/
def takeDigits : Nat → List Char → (List Nat × List Char)
  | 0, cs => ([], cs)
  | n + 1, c :: cs =>
    match digitVal c with
    | some d =>
      let p := takeDigits n cs
      (d :: p.1, p.2)
    | none => ([], c :: cs)
  | _ + 1, [] => ([], [])

def digitsVal (ds : List Nat) : Nat :=
  ds.foldl (fun a d => 10 * a + d) 0

/-- `%f`: one to six fractional digits, right-padded to microseconds. -/
def parseMicro (cs : List Char) : Option (Nat × List Char) :=
  let p := takeDigits 6 cs
  if p.1 = [] then none
  else some (digitsVal p.1 * 10 ^ (6 - p.1.length), p.2)

/-- `%z` offset: `Z`, `±HHMM`, `±HH:MM`, `±HHMMSS` or `±HH:MM:SS`
(consistent colons only, see above); the resulting offset must be strictly
less than 24 hours (`timezone` raises otherwise). -/
def parseOffset (cs : List Char) : Option (Int × List Char) :=
  match cs with
  | [] => none
  | 'Z' :: rest => some (0, rest)
  | c :: rest =>
    if c = '+' ∨ c = '-' then
      match parse2exact 0 99 rest with
      | none => none
      | some (h, r1) =>
        let cont : Option (Nat × List Char) :=
          match r1 with
          | ':' :: r2 =>
            match parse2exact 0 59 r2 with
            | none => none
            | some (m, r3) =>
              match r3 with
              | ':' :: r4 =>
                match parse2exact 0 59 r4 with
                | none => none
                | some (s, r5) => some (h * 3600 + m * 60 + s, r5)
              | _ => some (h * 3600 + m * 60, r3)
          | _ =>
            match parse2exact 0 59 r1 with
            | none => none
            | some (m, r3) =>
              match parse2exact 0 59 r3 with
              | some (s, r5) => some (h * 3600 + m * 60 + s, r5)
              | none => some (h * 3600 + m * 60, r3)
        match cont with
        | none => none
        | some (total, rest') =>
          if total < 86400 then
            some (if c = '-' then -(total : Int) else (total : Int), rest')
          else none
    else none

/-- Embedding of `datetime.strptime(s, "%Y-%m-%dT%H:%M:%S.%f%z")`; `none`
models the `ValueError`/`TypeError` that the calling predicates catch. -/
def strptimeTickTick (s : String) : Option DateTimeTZ := do
  let (y, r1) ← parse4 s.data
  let r2 ← parseLit '-' r1
  let (mo, r3) ← parseField 1 12 1 9 r2
  let r4 ← parseLit '-' r3
  let (d, r5) ← parseField 1 31 1 9 r4
  let r6 ← parseSepT r5
  let (h, r7) ← parseField 0 23 0 9 r6
  let r8 ← parseLit ':' r7
  let (mi, r9) ← parseField 0 59 0 9 r8
  let r10 ← parseLit ':' r9
  let (sec, r11) ← parseField 0 61 0 9 r10
  let r12 ← parseLit '.' r11
  let (mic, r13) ← parseMicro r12
  let (off, r14) ← parseOffset r13
  if r14 = [] ∧ 1 ≤ y ∧ d ≤ daysInMonth y mo ∧ sec ≤ 59 then
    some ⟨y, mo, d, h, mi, sec, mic, off⟩
  else none

example : strptimeTickTick "2025-01-15T08:00:00.000+0000" =
    some ⟨2025, 1, 15, 8, 0, 0, 0, 0⟩ := by decide

example : strptimeTickTick "2025-01-15" = none := by decide

example : strptimeTickTick "2025-01-15T08:00:00.000Z" =
    some ⟨2025, 1, 15, 8, 0, 0, 0, 0⟩ := by decide

/-! ## Task records and the date predicates of `tools/tasks.py` -/

/-- A subtask entry of a task's `items` list (fields used by `format_task`). -/
structure Subtask where
  title : Option String
  status : Option Int
deriving Repr, DecidableEq

/-- A task dictionary as delivered by the API (fields this core reads).
A missing key is `none`. -/
structure TaskRecord where
  id : Option String
  title : Option String
  projectId : Option String
  content : Option String
  startDate : Option String
  dueDate : Option String
  priority : Option Int
  status : Option Int
  items : List Subtask
deriving Repr, DecidableEq

/-- A task with only a due date and a priority set (shorthand for examples). -/
def mkTask (dueDate : Option String) (priority : Option Int) : TaskRecord :=
  ⟨none, none, none, none, none, dueDate, priority, none, []⟩

/-- `_is_task_due_today` (tasks.py lines 18-29): parse `dueDate` with
`strptime(.., "%Y-%m-%dT%H:%M:%S.%f%z")`, take `.date()` — the civil date as
written in the string, the offset is not applied — and compare with
`datetime.now(timezone.utc).date()`; parse failures yield `False`. -/
def is_task_due_today (task : TaskRecord) (now : UTCTime) : Bool :=
  match task.dueDate with
  | none => false
  | some s =>
    if s = "" then false
    else
      match strptimeTickTick s with
      | none => false
      | some dt => daysFromCivil dt.year dt.month dt.day == utcDayNumber now

/-- `_is_task_overdue` (tasks.py lines 32-42): the parsed aware datetime is
compared as an instant against `datetime.now(timezone.utc)`. -/
def is_task_overdue (task : TaskRecord) (now : UTCTime) : Bool :=
  match task.dueDate with
  | none => false
  | some s =>
    if s = "" then false
    else
      match strptimeTickTick s with
      | none => false
      | some dt => instantMicros dt < utcMicros now

/-- `_is_task_due_in_days` (tasks.py lines 45-56): written civil date versus
`(datetime.now(timezone.utc) + timedelta(days=days)).date()`. -/
def is_task_due_in_days (task : TaskRecord) (days : Nat) (now : UTCTime) : Bool :=
  match task.dueDate with
  | none => false
  | some s =>
    if s = "" then false
    else
      match strptimeTickTick s with
      | none => false
      | some dt => daysFromCivil dt.year dt.month dt.day == utcDayNumber now + days

/-- `week_filter` (tasks.py lines 479-490, inside
`get_tasks_due_this_week_tool`): written civil date within
`[today, today + 7 days]` inclusive. -/
def week_filter (task : TaskRecord) (now : UTCTime) : Bool :=
  match task.dueDate with
  | none => false
  | some s =>
    if s = "" then false
    else
      match strptimeTickTick s with
      | none => false
      | some dt =>
        utcDayNumber now ≤ daysFromCivil dt.year dt.month dt.day &&
          daysFromCivil dt.year dt.month dt.day ≤ utcDayNumber now + 7

/-- `engaged_filter` (gtd.py lines 54-58). -/
def engaged_filter (task : TaskRecord) (now : UTCTime) : Bool :=
  let is_high_priority := task.priority.getD 0 == 5
  let is_overdue := is_task_overdue task now
  let is_today := is_task_due_today task now
  is_high_priority || is_overdue || is_today

/-- `next_filter` (gtd.py lines 79-82). -/
def next_filter (task : TaskRecord) (now : UTCTime) : Bool :=
  let is_medium_priority := task.priority.getD 0 == 3
  let is_due_tomorrow := is_task_due_in_days task 1 now
  is_medium_priority || is_due_tomorrow

/-! ## Model of `datetime.fromisoformat` and the input validators

`fromisoformat` is CPython standard library, not repository code; the model
below covers the version-stable subset grammar that both the pre-3.11 and the
3.11+ implementations accept: `YYYY-MM-DD`, optionally followed by
`T HH:MM[:SS[.fff|.ffffff]]`, optionally followed by a numeric offset
`±HH:MM`.  Every concrete date string settled in this development lies in
territory where all CPython versions agree. -/

def isoTimeTail (cs : List Char) : Option (List Char) :=
  match parse2exact 0 23 cs with
  | none => none
  | some (_, r1) =>
    match parseLit ':' r1 with
    | none => none
    | some r2 =>
      match parse2exact 0 59 r2 with
      | none => none
      | some (_, r3) =>
        match r3 with
        | ':' :: r4 =>
          match parse2exact 0 59 r4 with
          | none => none
          | some (_, r5) =>
            match r5 with
            | '.' :: r6 =>
              let p := takeDigits 6 r6
              if p.1.length = 3 ∨ p.1.length = 6 then some p.2 else none
            | _ => some r5
        | _ => some r3

def isoOffsetTail (cs : List Char) : Option (List Char) :=
  match cs with
  | c :: rest =>
    if c = '+' ∨ c = '-' then
      match parse2exact 0 23 rest with
      | none => none
      | some (_, r1) =>
        match parseLit ':' r1 with
        | none => none
        | some r2 =>
          match parse2exact 0 59 r2 with
          | none => none
          | some (_, r3) => some r3
    else none
  | [] => none

/-- Does `datetime.fromisoformat(s)` succeed (subset grammar, see above)? -/
def fromisoformatOk (s : String) : Bool :=
  match parse4 s.data with
  | none => false
  | some (y, r1) =>
    match parseLit '-' r1 with
    | none => false
    | some r2 =>
      match parse2exact 1 12 r2 with
      | none => false
      | some (m, r3) =>
        match parseLit '-' r3 with
        | none => false
        | some r4 =>
          match parse2exact 1 31 r4 with
          | none => false
          | some (d, r5) =>
            if 1 ≤ y ∧ d ≤ daysInMonth y m then
              match r5 with
              | [] => true
              | 'T' :: r6 =>
                match isoTimeTail r6 with
                | none => false
                | some r7 =>
                  match r7 with
                  | [] => true
                  | _ =>
                    match isoOffsetTail r7 with
                    | some [] => true
                    | _ => false
              | _ => false
            else false

example : fromisoformatOk "2025-01-15" = true := by decide
example : fromisoformatOk "2025-01-15T08:00:00" = true := by decide
example : fromisoformatOk "2025-01-15T08:00:00+00:00" = true := by decide
example : fromisoformatOk "2025-02-30" = false := by decide

/-- Python truthiness of `s.strip()`: true iff the string has a
non-whitespace character. -/
def pyStripTruthy (s : String) : Bool :=
  !(s.data.all Char.isWhitespace)

/-- Python `s.endswith("Z")`. -/
def endsWithZ (s : String) : Bool :=
  s.data.getLast? == some 'Z'

/-- Python `s.replace("Z", "+00:00")`: every occurrence of the single
character `Z` is expanded. -/
def replaceZ (s : String) : String :=
  String.mk (s.data.foldr
    (fun c acc => if c = 'Z' then '+' :: '0' :: '0' :: ':' :: '0' :: '0' :: acc else c :: acc)
    [])

/-- `TaskValidator.MAX_TITLE_LENGTH` (ticktick_client.py line 18). -/
def MAX_TITLE_LENGTH : Nat := 500

/-- `TaskValidator.MAX_CONTENT_LENGTH` (ticktick_client.py line 19). -/
def MAX_CONTENT_LENGTH : Nat := 10000

/-- `TaskValidator.validate_task_title` (ticktick_client.py lines 23-40);
`Except.error` embeds the raised `ValueError`. -/
def validate_task_title (title : String) : Except String Unit :=
  if title = "" ∨ !pyStripTruthy title then
    .error "Task title cannot be empty"
  else if title.length > MAX_TITLE_LENGTH then
    .error ("Task title must be " ++ toString MAX_TITLE_LENGTH ++
      " characters or less (current: " ++ toString title.length ++ " characters)")
  else .ok ()

/-- `TaskValidator.validate_content` (ticktick_client.py lines 61-76). -/
def validate_content (content : Option String) : Except String Unit :=
  match content with
  | none => .ok ()
  | some c =>
    if c ≠ "" ∧ c.length > MAX_CONTENT_LENGTH then
      .error ("Content must be " ++ toString MAX_CONTENT_LENGTH ++
        " characters or less (current: " ++ toString c.length ++ " characters)")
    else .ok ()

/-- `TaskValidator.validate_priority` (ticktick_client.py lines 78-93). -/
def validate_priority (priority : Int) : Except String Unit :=
  if priority = 0 ∨ priority = 1 ∨ priority = 3 ∨ priority = 5 then .ok ()
  else
    .error ("Priority must be one of (0, 1, 3, 5) (0=None, 1=Low, 3=Medium, 5=High), got "
      ++ toString priority)

/-- The parse attempted by `TaskValidator.validate_date` and by the batch
gate's date check: a trailing `Z` makes the code call
`date_str.replace("Z", "+00:00")` (all occurrences) before
`fromisoformat`; every other branch calls `fromisoformat` directly. -/
def isoDateBranchOk (s : String) : Bool :=
  if endsWithZ s then fromisoformatOk (replaceZ s)
  else fromisoformatOk s

/-- `TaskValidator.validate_date` (ticktick_client.py lines 95-123). -/
def validate_date (date_str : Option String) (field_name : String) : Except String Unit :=
  match date_str with
  | none => .ok ()
  | some s =>
    if s = "" then .ok ()
    else if isoDateBranchOk s then .ok ()
    else
      .error (field_name ++
        " must be in ISO format (e.g., 'YYYY-MM-DD' or 'YYYY-MM-DDTHH:mm:ss' or with timezone). Got: "
        ++ s)

/-! ## Batch creation (`batch_create_tasks_tool`, tasks.py lines 519-615) -/

/-- A raw task specification from the batch input list (a Python dict;
missing keys are `none`). -/
structure TaskData where
  title : Option String
  project_id : Option String
  content : Option String
  start_date : Option String
  due_date : Option String
  priority : Option Int
deriving Repr, DecidableEq

/-- Python truthiness of an optional string: missing and `""` are falsy. -/
def strTruthy : Option String → Bool
  | none => false
  | some s => !(s = "")

/-- `_validate_task_data` (tasks.py lines 83-117): returns the first error
message for this spec, or `none` when the spec passes the gate. -/
def validate_task_data (td : TaskData) (task_index : Nat) : Option String :=
  let tn := toString (task_index + 1)
  if !strTruthy td.title then
    some ("Task " ++ tn ++ ": 'title' is required and cannot be empty")
  else if !strTruthy td.project_id then
    some ("Task " ++ tn ++ ": 'project_id' is required and cannot be empty")
  else if (match td.priority with
           | some p => !(p = 0 ∨ p = 1 ∨ p = 3 ∨ p = 5 : Bool)
           | none => false) then
    some ("Task " ++ tn ++ ": Invalid priority " ++ toString (td.priority.getD 0) ++
      ". Must be 0 (None), 1 (Low), 3 (Medium), or 5 (High)")
  else if (match td.start_date with
           | some s => !(s = "") && !isoDateBranchOk s
           | none => false) then
    some ("Task " ++ tn ++ ": Invalid start_date format '" ++ (td.start_date.getD "") ++
      "'. Use ISO format: YYYY-MM-DDTHH:mm:ss or with timezone")
  else if (match td.due_date with
           | some s => !(s = "") && !isoDateBranchOk s
           | none => false) then
    some ("Task " ++ tn ++ ": Invalid due_date format '" ++ (td.due_date.getD "") ++
      "'. Use ISO format: YYYY-MM-DDTHH:mm:ss or with timezone")
  else none

/-- The validation gate (tasks.py lines 540-548): every spec is checked and
the per-index errors are collected in input order. -/
def batchValidationErrors (tasks : List TaskData) : List String :=
  (tasks.enum).filterMap (fun q => validate_task_data q.2 q.1)

/-- The result dictionary a `client.create_task` call evaluates to
(either a created-task payload or a `_make_request` error dictionary). -/
structure ApiDict where
  error : Option String
  errType : Option String
  id : Option String
deriving Repr, DecidableEq

/-- The validation sequence run by `TickTickClient.create_task`
(ticktick_client.py lines 481-486) before its network call; the first
raised `ValueError` aborts the call. -/
def create_task_validate (title : String) (content : Option String)
    (start_date : Option String) (due_date : Option String)
    (priority : Int) : Except String Unit := do
  validate_task_title title
  validate_content content
  validate_priority priority
  validate_date start_date "start_date"
  validate_date due_date "due_date"

/-- Left-to-right concatenation of string pieces, as built by the source's
`result += ...` loops. -/
def strJoin : List String → String
  | [] => ""
  | x :: rest => x ++ strJoin rest

/-- Failure message recorded by the batch loop for an error dictionary
(tasks.py lines 579-592). -/
def batchFailMsg (i : Nat) (title : String) (r : ApiDict) : String :=
  let p := "Task " ++ toString (i + 1) ++ " ('" ++ title ++ "'): "
  match r.errType with
  | some "auth" => p ++ "Authentication failed (401)"
  | some "permission" => p ++ "Permission denied (403)"
  | some "not_found" => p ++ "Project not found (404)"
  | some "network" => p ++ "Network error"
  | _ => p ++ r.error.getD ""

/-- Where one index of the creation loop ends up. -/
inductive StepRes where
  | created (entry : Nat × String × ApiDict)
  | failed (msg : String)
deriving Repr, DecidableEq

/-- One iteration of the creation loop (tasks.py lines 559-597) for index
`i`: extract the fields (a missing required key raises `KeyError`, caught by
the blanket `except` with `str(e)` being the quoted key name), run
`client.create_task`'s validators (a `ValueError` is caught the same way),
and otherwise classify the injected network result `r`. -/
def stepOutcome (r : ApiDict) (i : Nat) (td : TaskData) : StepRes :=
  match td.title with
  | none => .failed ("Task " ++ toString (i + 1) ++ " ('Unknown'): 'title'")
  | some title =>
    match td.project_id with
    | none => .failed ("Task " ++ toString (i + 1) ++ " ('" ++ title ++ "'): 'project_id'")
    | some _ =>
      match create_task_validate title td.content td.start_date td.due_date
          (td.priority.getD 0) with
      | .error e => .failed ("Task " ++ toString (i + 1) ++ " ('" ++ title ++ "'): " ++ e)
      | .ok _ =>
        match r.error with
        | some _ => .failed (batchFailMsg i title r)
        | none => .created (i + 1, title, r)

/-- Whether index `i` reaches the network: the required keys are present and
`create_task`'s validators pass (the call happens before the result is
classified, so an error dictionary still counts as a performed call). -/
def stepCallsNet (_i : Nat) (td : TaskData) : Bool :=
  match td.title, td.project_id with
  | some title, some _ =>
    match create_task_validate title td.content td.start_date td.due_date
        (td.priority.getD 0) with
    | .ok _ => true
    | .error _ => false
  | _, _ => false

/-- State threaded through the creation loop: the `created_tasks` and
`failed_tasks` accumulators of the source plus the log of indices whose
`client.create_task` call reached `_make_request`. -/
structure BatchState where
  created : List (Nat × String × ApiDict)
  failed : List String
  netCalls : List Nat
deriving Repr, DecidableEq

/-- The creation loop (tasks.py lines 559-597), one step per spec, indices
counted from `i`; `net` injects the network result per original index. -/
def batchCreateGo (net : Nat → ApiDict) : Nat → List TaskData → BatchState → BatchState
  | _, [], st => st
  | i, td :: rest, st =>
    let st' : BatchState :=
      match stepOutcome (net i) i td with
      | .created c =>
        ⟨st.created ++ [c], st.failed,
          st.netCalls ++ (if stepCallsNet i td then [i] else [])⟩
      | .failed m =>
        ⟨st.created, st.failed ++ [m],
          st.netCalls ++ (if stepCallsNet i td then [i] else [])⟩
    batchCreateGo net (i + 1) rest st'

/-- The result message assembly (tasks.py lines 600-615). -/
def formatBatchResult (st : BatchState) : String :=
  "Batch task creation completed.\n\n" ++
  "Successfully created: " ++ toString st.created.length ++ " tasks\n" ++
  "Failed: " ++ toString st.failed.length ++ " tasks\n\n" ++
  (if st.created ≠ [] then
    "✅ Successfully Created Tasks:\n" ++
    strJoin (st.created.map (fun c =>
      toString c.1 ++ ". " ++ c.2.1 ++ " (ID: " ++ (c.2.2.id.getD "Unknown") ++ ")\n")) ++
    "\n"
   else "") ++
  (if st.failed ≠ [] then
    "❌ Failed Tasks:\n" ++ strJoin (st.failed.map (fun e => e ++ "\n"))
   else "")

/-- `batch_create_tasks_tool` (tasks.py lines 519-615): the returned message
paired with the log of indices for which a creation call was performed. -/
def batch_create_tasks (net : Nat → ApiDict) (tasks : List TaskData) :
    String × List Nat :=
  if tasks = [] then
    ("No tasks provided. Please provide a list of tasks to create.", [])
  else
    let validation_errors := batchValidationErrors tasks
    if validation_errors ≠ [] then
      ("Validation errors found:\n" ++ String.intercalate "\n" validation_errors, [])
    else
      let st := batchCreateGo net 0 tasks ⟨[], [], []⟩
      (formatBatchResult st, st.netCalls)

/-! ## Resilient transport (`TickTickClient._make_request` / `_refresh_access_token`)

The two HTTP attempts a single `_make_request` call can make, and the token
endpoint, are injected through an environment record.  Credentials are
`Option String` (environment variables may be unset; the source also treats
empty strings as missing via Python truthiness, which the `Option` embedding
represents as `none`). -/

/-- The mutable credential state of `TickTickClient`. -/
structure Creds where
  accessToken : Option String
  refreshToken : Option String
  clientId : Option String
  clientSecret : Option String
deriving Repr, DecidableEq

/-- Parsed JSON body of a token-endpoint response. -/
structure TokenResp where
  access_token : Option String
  refresh_token : Option String
deriving Repr, DecidableEq

/-- The request `_refresh_access_token` posts to the token endpoint. -/
structure TokenRequest where
  grant_type : String
  refresh_token : String
  auth_header : String
deriving Repr, DecidableEq

/-- Result of one `session` HTTP attempt: a response, or one of the
`requests` exception classes `_make_request` distinguishes. -/
inductive AttemptResult where
  | resp (status : Nat) (body : String)
  | connError (msg : String)
  | timeoutError (msg : String)
  | reqError (msg : String)
deriving Repr, DecidableEq

/-- Injected environment of one `_make_request` call: the first attempt's
result, the retried attempt's result (consulted only if a retry happens),
the token endpoint's response (`none` = endpoint error, i.e.
`raise_for_status`/transport failure inside the refresh), and the
`str(HTTPError)` message text per status code. -/
structure Env where
  first : AttemptResult
  second : AttemptResult
  tokenResp : Option TokenResp
  httpMsg : Nat → String

/-- Standard base64 alphabet. -/
def b64Char (n : Nat) : Char :=
  ("ABCDEFGHIJKLMNOPQRSTUVWXYZabcdefghijklmnopqrstuvwxyz0123456789+/".data).getD n 'A'

/-- RFC 4648 base64 of a byte list (as produced by `base64.b64encode`). -/
def base64Encode : List Nat → String
  | [] => ""
  | [a] =>
    String.mk [b64Char (a / 4), b64Char (a % 4 * 16), '=', '=']
  | [a, b] =>
    String.mk [b64Char (a / 4), b64Char (a % 4 * 16 + b / 16), b64Char (b % 16 * 4), '=']
  | a :: b :: c :: rest =>
    String.mk [b64Char (a / 4), b64Char (a % 4 * 16 + b / 16),
      b64Char (b % 16 * 4 + c / 64), b64Char (c % 64)] ++ base64Encode rest

/-- `str.encode('ascii')` for the ASCII credential strings. -/
def asciiBytes (s : String) : List Nat :=
  s.data.map Char.toNat

/-- Result of `_refresh_access_token`: its boolean return value, the updated
credential state, and the token-endpoint requests it sent. -/
structure RefreshRes where
  ok : Bool
  creds : Creds
  tokenRequests : List TokenRequest
deriving Repr, DecidableEq

/-- `TickTickClient._refresh_access_token` (ticktick_client.py lines 180-235):
fails fast when the refresh token or the client id/secret is missing;
otherwise posts `grant_type=refresh_token` with HTTP Basic auth
`base64(clientId ++ ":" ++ clientSecret)`; on a token-endpoint error returns
`False`; on success installs the new access token (and refresh token when the
response carries one) and returns `True`. -/
def refresh_access_token (creds : Creds) (tokenResp : Option TokenResp) : RefreshRes :=
  match creds.refreshToken with
  | none => ⟨false, creds, []⟩
  | some rt =>
    match creds.clientId, creds.clientSecret with
    | some cid, some cs =>
      let req : TokenRequest :=
        ⟨"refresh_token", rt, "Basic " ++ base64Encode (asciiBytes (cid ++ ":" ++ cs))⟩
      match tokenResp with
      | none => ⟨false, creds, [req]⟩
      | some toks =>
        let c1 : Creds :=
          ⟨toks.access_token,
           (match toks.refresh_token with
            | some r => some r
            | none => creds.refreshToken),
           creds.clientId, creds.clientSecret⟩
        ⟨true, c1, [req]⟩
    | _, _ => ⟨false, creds, []⟩

/-- Payload of a successful `_make_request`: `{}` for 204/empty bodies, else
the JSON-decoded response body. -/
inductive Payload where
  | emptyDict
  | json (body : String)
deriving Repr, DecidableEq

/-- The error dictionary `_make_request` returns on failure. -/
structure FailureInfo where
  errorMsg : String
  status_code : Option Nat
  errType : String
deriving Repr, DecidableEq

/-- `RequestOutcome`: every `_make_request` call returns exactly one of a
payload or an error dictionary. -/
inductive Outcome where
  | success (p : Payload)
  | failure (f : FailureInfo)
deriving Repr, DecidableEq

/-- The HTTPError classification (ticktick_client.py lines 325-354); statuses
reaching this branch satisfy `400 ≤ s < 600` because `raise_for_status`
raises exactly for those. -/
def classifyHttpError (status_code : Nat) (error_msg : String) : FailureInfo :=
  if status_code = 401 then
    ⟨"Authentication failed. Token expired or invalid.", some 401, "auth"⟩
  else if status_code = 403 then
    ⟨"Permission denied. You don't have access to this resource.", some 403, "permission"⟩
  else if status_code = 404 then
    ⟨"Resource not found. It may have been deleted.", some 404, "not_found"⟩
  else if status_code ≥ 500 then
    ⟨"TickTick server error (" ++ toString status_code ++ "). Please try again later.",
      some status_code, "server_error"⟩
  else ⟨error_msg, some status_code, "api"⟩

/-- `raise_for_status` then the 204/empty-body normalization and JSON decode
(ticktick_client.py lines 308-315 and the HTTPError handler). -/
def finalizeResponse (status : Nat) (body : String) (error_msg : String) : Outcome :=
  if 400 ≤ status ∧ status < 600 then .failure (classifyHttpError status error_msg)
  else if status = 204 ∨ body = "" then .success .emptyDict
  else .success (.json body)

/-- Trace of one `_make_request` call: its outcome, the access token sent
with each HTTP attempt, how many times `_refresh_access_token` ran, the
token-endpoint requests, and the final credential state. -/
structure ReqTrace where
  outcome : Outcome
  attemptTokens : List (Option String)
  refreshCalls : Nat
  tokenRequests : List TokenRequest
  finalCreds : Creds

/-- `TickTickClient._make_request` (ticktick_client.py lines 269-378): make
the request; on a 401 response run exactly one `_refresh_access_token` and,
only if it succeeded, retry once with the refreshed `Authorization` header;
then classify the final response or the caught `requests` exception. -/
def make_request (env : Env) (creds : Creds) : ReqTrace :=
  match env.first with
  | .connError m =>
    ⟨.failure ⟨"Network connection failed: " ++ m, none, "network"⟩,
      [creds.accessToken], 0, [], creds⟩
  | .timeoutError m =>
    ⟨.failure ⟨"Request timed out: " ++ m, none, "timeout"⟩,
      [creds.accessToken], 0, [], creds⟩
  | .reqError m =>
    ⟨.failure ⟨m, none, "unknown"⟩, [creds.accessToken], 0, [], creds⟩
  | .resp status body =>
    if status = 401 then
      let r := refresh_access_token creds env.tokenResp
      if r.ok then
        match env.second with
        | .connError m =>
          ⟨.failure ⟨"Network connection failed: " ++ m, none, "network"⟩,
            [creds.accessToken, r.creds.accessToken], 1, r.tokenRequests, r.creds⟩
        | .timeoutError m =>
          ⟨.failure ⟨"Request timed out: " ++ m, none, "timeout"⟩,
            [creds.accessToken, r.creds.accessToken], 1, r.tokenRequests, r.creds⟩
        | .reqError m =>
          ⟨.failure ⟨m, none, "unknown"⟩,
            [creds.accessToken, r.creds.accessToken], 1, r.tokenRequests, r.creds⟩
        | .resp s2 b2 =>
          ⟨finalizeResponse s2 b2 (env.httpMsg s2),
            [creds.accessToken, r.creds.accessToken], 1, r.tokenRequests, r.creds⟩
      else
        ⟨finalizeResponse status body (env.httpMsg status),
          [creds.accessToken], 1, r.tokenRequests, r.creds⟩
    else
      ⟨finalizeResponse status body (env.httpMsg status),
        [creds.accessToken], 0, [], creds⟩

/-! ## Project scan (`_get_project_tasks_by_filter`, tasks.py lines 120-164) -/

/-- A project dictionary (fields this core reads); `closedPresent` embeds
`'closed' in project` and `closed` the truthiness of `project.get('closed')`. -/
structure Project where
  id : Option String
  name : Option String
  color : Option String
  viewMode : Option String
  kind : Option String
  closedPresent : Bool
  closed : Bool
deriving Repr, DecidableEq

/-- The dictionary returned by `client.get_project_with_data`: either a
project payload with a `tasks` list or a `_make_request` error dictionary
(which has no `tasks` key, so `project_data.get('tasks', [])` yields `[]`). -/
structure ProjectData where
  error : Option String
  tasks : Option (List TaskRecord)
deriving Repr, DecidableEq

/-- `PRIORITY_MAP`-based name lookup used by `format_task`
(`priority_map.get(priority, str(priority))`). -/
def priorityName (p : Int) : String :=
  if p = 0 then "None"
  else if p = 1 then "Low"
  else if p = 3 then "Medium"
  else if p = 5 then "High"
  else toString p

/-- `format_task` (formatting.py lines 11-61). -/
def format_task (task : TaskRecord) : String :=
  "ID: " ++ task.id.getD "No ID" ++ "\n" ++
  "Title: " ++ task.title.getD "No title" ++ "\n" ++
  "Project ID: " ++ task.projectId.getD "None" ++ "\n" ++
  (match task.startDate with
   | some s => if s = "" then "" else "Start Date: " ++ s ++ "\n"
   | none => "") ++
  (match task.dueDate with
   | some s => if s = "" then "" else "Due Date: " ++ s ++ "\n"
   | none => "") ++
  "Priority: " ++ priorityName (task.priority.getD 0) ++ "\n" ++
  "Status: " ++ (if task.status = some 2 then "Completed" else "Active") ++ "\n" ++
  (match task.content with
   | some c => if c = "" then "" else "\nContent:\n" ++ c ++ "\n"
   | none => "") ++
  (if task.items ≠ [] then
    "\nSubtasks (" ++ toString task.items.length ++ "):\n" ++
    strJoin ((task.items.enumFrom 1).map (fun q =>
      toString q.1 ++ ". [" ++ (if q.2.status = some 1 then "✓" else "□") ++ "] " ++
      q.2.title.getD "No title" ++ "\n"))
   else "")

/-- `format_project` (formatting.py lines 64-100). -/
def format_project (p : Project) : String :=
  "Name: " ++ p.name.getD "No name" ++ "\n" ++
  "ID: " ++ p.id.getD "No ID" ++ "\n" ++
  (match p.color with
   | some c => if c = "" then "" else "Color: " ++ c ++ "\n"
   | none => "") ++
  (match p.viewMode with
   | some v => if v = "" then "" else "View Mode: " ++ v ++ "\n"
   | none => "") ++
  (if p.closedPresent then
    "Closed: " ++ (if p.closed then "Yes" else "No") ++ "\n"
   else "") ++
  (match p.kind with
   | some k => if k = "" then "" else "Kind: " ++ k ++ "\n"
   | none => "")

/-- The report section one non-closed project contributes (tasks.py lines
142-162); when the fetched task list is empty, the early branch at lines
146-150 emits the zero-count section. -/
def projectSection (fetch : String → ProjectData) (filt : TaskRecord → Bool)
    (filter_name : String) (i : Nat) (p : Project) : String :=
  let project_id := p.id.getD "No ID"
  let tasks := (fetch project_id).tasks.getD []
  if tasks = [] then
    "Project " ++ toString i ++ ":\n" ++ format_project p ++
    "With 0 tasks that are to be '" ++ filter_name ++ "' in this project :\n\n\n"
  else
    let filtered := (tasks.enumFrom 1).filter (fun q => filt q.2)
    "Project " ++ toString i ++ ":\n" ++ format_project p ++
    "With " ++ toString filtered.length ++ " tasks that are to be '" ++ filter_name ++
    "' in this project :\n" ++
    strJoin (filtered.map (fun q =>
      "Task " ++ toString q.1 ++ ":\n" ++ format_task q.2 ++ "\n")) ++
    "\n\n"

/-- Result of a scan: the report text and the project ids fetched through
`client.get_project_with_data`, in call order. -/
structure ScanOut where
  text : String
  fetched : List String
deriving Repr, DecidableEq

/-- The scan loop (tasks.py lines 138-162): `enumerate(projects, 1)`, with
`closed` projects skipped by `continue` before any fetch. -/
def scanGo (fetch : String → ProjectData) (filt : TaskRecord → Bool)
    (filter_name : String) : Nat → List Project → ScanOut
  | _, [] => ⟨"", []⟩
  | i, p :: rest =>
    let tail := scanGo fetch filt filter_name (i + 1) rest
    if p.closed then tail
    else
      ⟨projectSection fetch filt filter_name i p ++ tail.text,
        (p.id.getD "No ID") :: tail.fetched⟩

/-- `_get_project_tasks_by_filter` (tasks.py lines 120-164). -/
def get_project_tasks_by_filter (fetch : String → ProjectData)
    (projects : List Project) (filt : TaskRecord → Bool)
    (filter_name : String) : ScanOut :=
  if projects = [] then ⟨"No projects found.", []⟩
  else
    let go := scanGo fetch filt filter_name 1 projects
    ⟨"Found " ++ toString projects.length ++ " projects:\n\n" ++ go.text, go.fetched⟩

/-! ## Claims about the classifier -/

/-- Modelled from the spec: the boolean formula the spec gives for the
engaged bucket, `priority==5 OR overdue(now) OR dueToday(now)`. -/
def spec_engaged (task : TaskRecord) (now : UTCTime) : Bool :=
  task.priority.getD 0 == 5 || is_task_overdue task now || is_task_due_today task now

/-- Modelled from the spec: the boolean formula the spec gives for the next
bucket, `priority==3 OR dueInDays(now,1)`. -/
def spec_next (task : TaskRecord) (now : UTCTime) : Bool :=
  task.priority.getD 0 == 3 || is_task_due_in_days task 1 now

/-- C6: for every task and every now, `engaged_filter` is true iff
priority==5 OR overdue OR dueToday, and `next_filter` is true iff
priority==3 OR dueInDays(now,1) — the gtd.py filters coincide with the
spec's boolean formulas over all combinations of priority, dueDate and now. -/
theorem gtd_filters_match_formula (task : TaskRecord) (now : UTCTime) :
    engaged_filter task now = spec_engaged task now ∧
    next_filter task now = spec_next task now :=
  ⟨rfl, rfl⟩

/-- Witness for `gtd_filters_match_formula` at a concrete task and now. -/
theorem gtd_filters_match_formula_witness :
    engaged_filter (mkTask (some "2025-01-15T08:00:00.000+0000") (some 1))
        ⟨2025, 1, 15, 12, 0, 0, 0⟩ =
      spec_engaged (mkTask (some "2025-01-15T08:00:00.000+0000") (some 1))
        ⟨2025, 1, 15, 12, 0, 0, 0⟩ :=
  (gtd_filters_match_formula _ _).1

/-- UTC calendar day number of an absolute instant (floor division by the
microseconds per day). -/
def utcDayOfInstant (μ : Int) : Int :=
  Int.fdiv μ MICROS_PER_DAY

/-- Modelled from the spec (the claim's reading of dueToday): the dueDate
parses and the calendar date of the due *instant taken in UTC* equals now's
UTC calendar date. -/
def dueToday_utc_spec (task : TaskRecord) (now : UTCTime) : Bool :=
  match task.dueDate with
  | none => false
  | some s =>
    match strptimeTickTick s with
    | none => false
    | some dt => utcDayOfInstant (instantMicros dt) == utcDayNumber now

/-- A task due 2025-01-16 01:00 at offset +14:00: that instant is
2025-01-15 11:00 UTC, so its UTC calendar day is the 15th while the written
calendar day is the 16th. -/
def c5Task : TaskRecord := mkTask (some "2025-01-16T01:00:00.000+1400") none

def c5Now : UTCTime := ⟨2025, 1, 15, 12, 0, 0, 0⟩

/-- C5 counterexample: the claim says dueToday compares the dueDate's
calendar date *taken in UTC* with now's UTC date.  For a dueDate whose
non-UTC offset puts its local day one ahead of its UTC day, the UTC days are
equal, yet `_is_task_due_today` returns False — the code compares the date
as written in the string (`strptime(...).date()` does not convert to UTC). -/
theorem dueToday_not_utc_counterexample :
    dueToday_utc_spec c5Task c5Now = true ∧
    is_task_due_today c5Task c5Now = false := by
  constructor <;> decide

/-- Modelled from the amended claim: the dueDate parses and the calendar
date *written in the string* (the offset is parsed but not applied) equals
now's UTC calendar date. -/
def dueToday_written_spec (task : TaskRecord) (now : UTCTime) : Bool :=
  match task.dueDate with
  | none => false
  | some s =>
    match strptimeTickTick s with
    | none => false
    | some dt => daysFromCivil dt.year dt.month dt.day == utcDayNumber now

/-- C5 amended: for every task and every now, `_is_task_due_today` is true
iff the dueDate parses and the calendar date written in the dueDate string
equals now's UTC calendar date. -/
theorem dueToday_uses_written_date (task : TaskRecord) (now : UTCTime) :
    is_task_due_today task now = dueToday_written_spec task now := by
  unfold is_task_due_today dueToday_written_spec
  cases hd : task.dueDate with
  | none => rfl
  | some s =>
    by_cases hs : s = ""
    · subst hs; rfl
    · simp [hs]

def c9Task : TaskRecord := mkTask (some "2025-01-15T08:00:00.000Z") none

def c9Now : UTCTime := ⟨2025, 1, 15, 12, 0, 0, 0⟩

/-- C9 counterexample: the claim's parenthetical says the predicates'
pattern requires a *numeric* offset, so a dueDate suffixed with the literal
`Z` would count as unparseable and yield false.  In CPython, `%z` also
accepts `Z` (as +00:00): this dueDate parses and `_is_task_due_today`
returns True for it, contradicting that reading. -/
theorem strptime_accepts_z_counterexample :
    strptimeTickTick "2025-01-15T08:00:00.000Z" = some ⟨2025, 1, 15, 8, 0, 0, 0, 0⟩ ∧
    is_task_due_today c9Task c9Now = true := by
  constructor <;> decide

/-- C9 amended: a missing dueDate, or one the predicates' `strptime` pattern
rejects, makes every date-based predicate (dueToday, overdue, dueInDays,
dueWithinWeek) return false rather than fail (the predicates are total
functions; the caught `ValueError`/`TypeError` is the `none` branch).  The
pattern is `%Y-%m-%dT%H:%M:%S.%f%z` with fractional seconds and an offset
required, the offset being numeric or the literal `Z`; ISO-8601 shapes the
input date validator accepts, such as a plain date or a date-time without
milliseconds, are rejected by it and yield false. -/
theorem date_predicates_unparseable_false :
    (∀ (t : TaskRecord) (now : UTCTime) (days : Nat), t.dueDate = none →
      is_task_due_today t now = false ∧ is_task_overdue t now = false ∧
      is_task_due_in_days t days now = false ∧ week_filter t now = false) ∧
    (∀ (t : TaskRecord) (now : UTCTime) (days : Nat) (s : String),
      t.dueDate = some s → strptimeTickTick s = none →
      is_task_due_today t now = false ∧ is_task_overdue t now = false ∧
      is_task_due_in_days t days now = false ∧ week_filter t now = false) ∧
    strptimeTickTick "2025-01-15" = none ∧
    strptimeTickTick "2025-01-15T08:00:00" = none ∧
    strptimeTickTick "2025-01-15T08:00:00+0000" = none ∧
    validate_date (some "2025-01-15") "due_date" = .ok () ∧
    validate_date (some "2025-01-15T08:00:00") "due_date" = .ok () := by
  refine ⟨?_, ?_, by decide, by decide, by decide, rfl, rfl⟩
  · intro t now days hd
    refine ⟨?_, ?_, ?_, ?_⟩ <;>
      simp [is_task_due_today, is_task_overdue, is_task_due_in_days, week_filter, hd]
  · intro t now days s hd hp
    by_cases hs : s = ""
    · subst hs
      refine ⟨?_, ?_, ?_, ?_⟩ <;>
        simp [is_task_due_today, is_task_overdue, is_task_due_in_days, week_filter, hd]
    · refine ⟨?_, ?_, ?_, ?_⟩ <;>
        simp [is_task_due_today, is_task_overdue, is_task_due_in_days, week_filter, hd, hs, hp]

/-- Witness for `date_predicates_unparseable_false`: a task with no dueDate
and a task whose dueDate is not in the predicates' pattern both classify as
false everywhere. -/
theorem date_predicates_unparseable_false_witness :
    is_task_due_today (mkTask none none) c9Now = false ∧
    week_filter (mkTask (some "2025-01-15") none) c9Now = false :=
  ⟨(date_predicates_unparseable_false.1 (mkTask none none) c9Now 0 rfl).1,
   ((date_predicates_unparseable_false.2.1 (mkTask (some "2025-01-15") none) c9Now 0
      "2025-01-15" rfl (by decide)).2.2.2)⟩

/-! ## Claims about batch creation -/

/-- C2: for every batch in which some specification fails the up-front
validation (required title, required project reference, optional priority in
0/1/3/5, optional ISO dates), `batch_create_tasks_tool` returns the
rejection message listing every per-index validation error collected by the
gate and performs zero creation calls — also none for the valid
specifications. -/
theorem batch_validation_gate (net : Nat → ApiDict) (tasks : List TaskData)
    (hne : tasks ≠ []) (hv : batchValidationErrors tasks ≠ []) :
    batch_create_tasks net tasks =
      ("Validation errors found:\n" ++ String.intercalate "\n" (batchValidationErrors tasks),
        []) := by
  unfold batch_create_tasks
  simp [hne, hv]

def c2Tasks : List TaskData :=
  [⟨some "Task A", some "proj1", none, none, none, none⟩,
   ⟨some "Task B", some "proj1", none, none, none, some 2⟩,
   ⟨some "Task C", some "proj1", none, none, none, some 5⟩]

def c2Net : Nat → ApiDict := fun _ => ⟨none, none, some "id1"⟩

/-- Witness for `batch_validation_gate`: a batch of 3 specs where spec #2
has priority 2 is rejected listing only spec #2's error, with zero creation
calls. -/
theorem batch_validation_gate_witness :
    batch_create_tasks c2Net c2Tasks =
      ("Validation errors found:\n" ++ String.intercalate "\n" (batchValidationErrors c2Tasks),
        []) ∧
    batchValidationErrors c2Tasks =
      ["Task 2: Invalid priority 2. Must be 0 (None), 1 (Low), 3 (Medium), or 5 (High)"] :=
  ⟨batch_validation_gate c2Net c2Tasks (by decide) (by decide), by decide⟩

def c10LongTitle : String := String.mk (List.replicate 501 'x')

def c10Tasks : List TaskData :=
  [⟨some c10LongTitle, some "proj1", none, none, none, none⟩,
   ⟨some "Short title", some "proj1", none, none, none, some 5⟩]

def c10Net : Nat → ApiDict := fun _ => ⟨none, none, some "newid"⟩

set_option maxRecDepth 4000 in
/-- C10: the gate checks only that a title is present and non-empty, so a
batch whose first spec has a 501-character title passes the gate; the
creation phase is entered, `TaskValidator.validate_task_title` raises for
index 0 before any network call for it (the call log contains only index 1),
the exception is recorded in the failed collection, and the next spec is
still attempted and created. -/
theorem batch_title_limit_gap :
    500 < c10LongTitle.length ∧
    batchValidationErrors c10Tasks = [] ∧
    (batchCreateGo c10Net 0 c10Tasks ⟨[], [], []⟩).netCalls = [1] ∧
    (batchCreateGo c10Net 0 c10Tasks ⟨[], [], []⟩).failed =
      ["Task 1 ('" ++ c10LongTitle ++
        "'): Task title must be 500 characters or less (current: 501 characters)"] ∧
    (batchCreateGo c10Net 0 c10Tasks ⟨[], [], []⟩).created =
      [(2, "Short title", ⟨none, none, some "newid"⟩)] := by
  refine ⟨?_, ?_, ?_, ?_, ?_⟩ <;> decide

/-- Spec-side view of the creation loop: the created entry index `q.1`
produces, if any. -/
def createdOf (net : Nat → ApiDict) (q : Nat × TaskData) :
    Option (Nat × String × ApiDict) :=
  match stepOutcome (net q.1) q.1 q.2 with
  | .created c => some c
  | .failed _ => none

/-- Spec-side view of the creation loop: the failure message index `q.1`
produces, if any. -/
def failedOf (net : Nat → ApiDict) (q : Nat × TaskData) : Option String :=
  match stepOutcome (net q.1) q.1 q.2 with
  | .created _ => none
  | .failed m => some m

/-- Spec-side view of the creation loop: the network call index `q.1`
performs, if any. -/
def callsOf (q : Nat × TaskData) : Option Nat :=
  if stepCallsNet q.1 q.2 then some q.1 else none

/-- The creation loop appends, to each accumulator, exactly the entries the
per-index views collect over the enumerated suffix. -/
theorem batchCreateGo_spec (net : Nat → ApiDict) (ts : List TaskData) :
    ∀ (i : Nat) (st : BatchState),
    batchCreateGo net i ts st =
      ⟨st.created ++ (ts.enumFrom i).filterMap (createdOf net),
       st.failed ++ (ts.enumFrom i).filterMap (failedOf net),
       st.netCalls ++ (ts.enumFrom i).filterMap callsOf⟩ := by
  induction ts with
  | nil => intro i st; simp [batchCreateGo, List.enumFrom]
  | cons td rest ih =>
    intro i st
    rw [batchCreateGo, ih]
    cases h : stepOutcome (net i) i td <;>
      by_cases hc : stepCallsNet i td <;>
        simp [h, hc, List.enumFrom, createdOf, failedOf, callsOf]

/-- Each enumerated index contributes to exactly one of the created and the
failed collections, so their lengths sum to the number of specs. -/
theorem created_failed_length_sum (net : Nat → ApiDict) (ts : List TaskData) :
    ∀ i : Nat,
    ((ts.enumFrom i).filterMap (createdOf net)).length +
      ((ts.enumFrom i).filterMap (failedOf net)).length = ts.length := by
  induction ts with
  | nil => intro i; simp [List.enumFrom]
  | cons td rest ih =>
    intro i
    cases h : stepOutcome (net i) i td <;>
      simp [List.enumFrom, createdOf, failedOf, h, ← ih (i + 1)] <;> omega

/-- C3: for every batch that passes the validation gate, the creation loop
processes the indices in input order and sends each into exactly one of the
created and failed collections: created is exactly the per-index view of the
successful indices (each entry carrying its original 1-based index and
title), failed is exactly the per-index view of the failing indices (each
message carrying its original 1-based index and title), the two lengths sum
to N, and with M failing indices there are exactly N − M created and M
failed entries; the tool's return value is the formatted report over that
state together with its network-call log. -/
theorem batch_creation_partition (net : Nat → ApiDict) (tasks : List TaskData)
    (hne : tasks ≠ []) (hv : batchValidationErrors tasks = []) :
    (batchCreateGo net 0 tasks ⟨[], [], []⟩).created =
        tasks.enum.filterMap (createdOf net) ∧
    (batchCreateGo net 0 tasks ⟨[], [], []⟩).failed =
        tasks.enum.filterMap (failedOf net) ∧
    (batchCreateGo net 0 tasks ⟨[], [], []⟩).created.length +
        (batchCreateGo net 0 tasks ⟨[], [], []⟩).failed.length = tasks.length ∧
    (batchCreateGo net 0 tasks ⟨[], [], []⟩).failed.length =
        (tasks.enum.filterMap (failedOf net)).length ∧
    (batchCreateGo net 0 tasks ⟨[], [], []⟩).created.length =
        tasks.length - (tasks.enum.filterMap (failedOf net)).length ∧
    batch_create_tasks net tasks =
      (formatBatchResult (batchCreateGo net 0 tasks ⟨[], [], []⟩),
        (batchCreateGo net 0 tasks ⟨[], [], []⟩).netCalls) := by
  have hspec := batchCreateGo_spec net tasks 0 ⟨[], [], []⟩
  have hsum := created_failed_length_sum net tasks 0
  have hc : (batchCreateGo net 0 tasks ⟨[], [], []⟩).created =
      tasks.enum.filterMap (createdOf net) := by
    rw [hspec]; simp [List.enum]
  have hf : (batchCreateGo net 0 tasks ⟨[], [], []⟩).failed =
      tasks.enum.filterMap (failedOf net) := by
    rw [hspec]; simp [List.enum]
  have hlen : (batchCreateGo net 0 tasks ⟨[], [], []⟩).created.length +
      (batchCreateGo net 0 tasks ⟨[], [], []⟩).failed.length = tasks.length := by
    rw [hc, hf]; simpa [List.enum] using hsum
  refine ⟨hc, hf, hlen, by rw [hf], by rw [hc, hf] at hlen; rw [hc]; omega, ?_⟩
  unfold batch_create_tasks
  simp [hne, hv]

def c3Tasks : List TaskData :=
  [⟨some "A", some "p", none, none, none, some 0⟩,
   ⟨some "B", some "p", none, none, none, some 1⟩,
   ⟨some "C", some "p", none, none, none, some 3⟩]

def c3Net : Nat → ApiDict := fun i =>
  if i = 1 then ⟨some "Resource not found. It may have been deleted.", some "not_found", none⟩
  else ⟨none, none, some "id"⟩

/-- Witness for `batch_creation_partition`: 3 valid specs with one injected
transport failure yield 2 created and 1 failed entry covering all indices. -/
theorem batch_creation_partition_witness :
    (batchCreateGo c3Net 0 c3Tasks ⟨[], [], []⟩).created.length +
      (batchCreateGo c3Net 0 c3Tasks ⟨[], [], []⟩).failed.length = c3Tasks.length ∧
    (batchCreateGo c3Net 0 c3Tasks ⟨[], [], []⟩).created =
      [(1, "A", ⟨none, none, some "id"⟩), (3, "C", ⟨none, none, some "id"⟩)] ∧
    (batchCreateGo c3Net 0 c3Tasks ⟨[], [], []⟩).failed =
      ["Task 2 ('B'): Project not found (404)"] :=
  ⟨(batch_creation_partition c3Net c3Tasks (by decide) (by decide)).2.2.1,
    by decide, by decide⟩

/-! ## Claims about the transport -/

/-- In no single `_make_request` call does `_refresh_access_token` run more
than once. -/
theorem make_request_refreshCalls_le_one (e : Env) (c : Creds) :
    (make_request e c).refreshCalls ≤ 1 := by
  unfold make_request
  cases e.first with
  | connError m => simp
  | timeoutError m => simp
  | reqError m => simp
  | resp s b =>
    by_cases h : s = 401
    · by_cases hok : (refresh_access_token c e.tokenResp).ok <;>
        cases e.second <;> simp [h, hok]
    · simp [h]

/-- `_refresh_access_token` succeeds exactly when the refresh token, the
client id, the client secret and a token-endpoint response are all present. -/
theorem refresh_ok_iff (creds : Creds) (tr : Option TokenResp) :
    (refresh_access_token creds tr).ok = true ↔
      (creds.refreshToken.isSome = true ∧ creds.clientId.isSome = true ∧
        creds.clientSecret.isSome = true ∧ tr.isSome = true) := by
  unfold refresh_access_token
  cases creds.refreshToken <;> cases creds.clientId <;>
    cases creds.clientSecret <;> cases tr <;> simp

/-- C1: whenever the first attempt of a `_make_request` call returns a 401
response, exactly one credential refresh is attempted (and never more than
one in any call); the refresh uses the refresh token with HTTP Basic auth of
`clientId:clientSecret` against the token endpoint and succeeds exactly when
all of those and the endpoint response are present; if it succeeds the
original request is retried exactly once with the new access token, and if
it fails the original 401 surfaces as the authentication failure outcome
with no retry; in the scenario 401 then refresh-success then 200, the result
is Success with the final payload after one refresh and two attempts. -/
theorem make_request_single_refresh (env : Env) (creds : Creds) (b : String)
    (h401 : env.first = .resp 401 b) :
    (make_request env creds).refreshCalls = 1 ∧
    (∀ (e : Env) (c : Creds), (make_request e c).refreshCalls ≤ 1) ∧
    ((refresh_access_token creds env.tokenResp).ok = true →
      (make_request env creds).attemptTokens =
        [creds.accessToken, (refresh_access_token creds env.tokenResp).creds.accessToken]) ∧
    ((refresh_access_token creds env.tokenResp).ok = false →
      (make_request env creds).outcome =
        .failure ⟨"Authentication failed. Token expired or invalid.", some 401, "auth"⟩ ∧
      (make_request env creds).attemptTokens = [creds.accessToken]) ∧
    ((refresh_access_token creds env.tokenResp).ok = true ↔
      (creds.refreshToken.isSome = true ∧ creds.clientId.isSome = true ∧
        creds.clientSecret.isSome = true ∧ env.tokenResp.isSome = true)) ∧
    (∀ (rt cid cs : String), creds.refreshToken = some rt → creds.clientId = some cid →
      creds.clientSecret = some cs → env.tokenResp ≠ none →
      (refresh_access_token creds env.tokenResp).tokenRequests =
        [⟨"refresh_token", rt, "Basic " ++ base64Encode (asciiBytes (cid ++ ":" ++ cs))⟩]) ∧
    (∀ (b2 : String), (refresh_access_token creds env.tokenResp).ok = true →
      env.second = .resp 200 b2 → b2 ≠ "" →
      (make_request env creds).outcome = .success (.json b2) ∧
      (make_request env creds).attemptTokens.length = 2 ∧
      (make_request env creds).refreshCalls = 1) := by
  refine ⟨?_, fun e c => make_request_refreshCalls_le_one e c, ?_, ?_,
    refresh_ok_iff creds env.tokenResp, ?_, ?_⟩
  · unfold make_request
    rw [h401]
    by_cases hok : (refresh_access_token creds env.tokenResp).ok <;>
      cases env.second <;> simp [hok]
  · intro hok
    unfold make_request
    rw [h401]
    cases env.second <;> simp [hok]
  · intro hok
    unfold make_request
    rw [h401]
    simp [hok, finalizeResponse, classifyHttpError]
  · intro rt cid cs hrt hcid hcs htr
    unfold refresh_access_token
    rw [hrt, hcid, hcs]
    cases tr : env.tokenResp with
    | none => exact absurd tr htr
    | some toks => simp
  · intro b2 hok h2 hb2
    unfold make_request
    rw [h401, h2]
    simp [hok, finalizeResponse, hb2]

def c1Env : Env :=
  ⟨.resp 401 "expired", .resp 200 "payload", some ⟨some "tok2", some "r2"⟩, fun _ => "err"⟩

def c1Creds : Creds := ⟨some "tok1", some "r1", some "cid", some "secret"⟩

/-- Witness for `make_request_single_refresh`: first attempt 401, refresh
succeeds, retry returns 200 with a payload — Success, one refresh, two
attempts. -/
theorem make_request_single_refresh_witness :
    (make_request c1Env c1Creds).outcome = .success (.json "payload") ∧
    (make_request c1Env c1Creds).attemptTokens.length = 2 ∧
    (make_request c1Env c1Creds).refreshCalls = 1 :=
  (make_request_single_refresh c1Env c1Creds "expired" rfl).2.2.2.2.2.2
    "payload" (by decide) rfl (by decide)

/-- Modelled from the spec: the closed ErrorTaxonomy of §7. -/
inductive ErrorKind where
  | authentication
  | permission
  | notFound
  | rateLimit
  | network
  | timeout
  | server
  | validation
  | unknown
deriving Repr, DecidableEq

/-- Modelled from the spec: the taxonomy kind denoted by each `type` string
the transport emits (`api` and `unknown` are both the spec's unknown/api
catch-all); strings outside this set denote no kind. -/
def kindOfTypeString : String → Option ErrorKind
  | "auth" => some .authentication
  | "permission" => some .permission
  | "not_found" => some .notFound
  | "rate_limit" => some .rateLimit
  | "network" => some .network
  | "timeout" => some .timeout
  | "server_error" => some .server
  | "validation" => some .validation
  | "api" => some .unknown
  | "unknown" => some .unknown
  | _ => none

/-- Every `classifyHttpError` result carries a `type` string inside the
closed taxonomy. -/
theorem classify_kind_isSome (s : Nat) (m : String) :
    (kindOfTypeString (classifyHttpError s m).errType).isSome = true := by
  unfold classifyHttpError
  by_cases h1 : s = 401 <;> by_cases h3 : s = 403 <;> by_cases h4 : s = 404 <;>
    by_cases h5 : s ≥ 500 <;> simp [h1, h3, h4, h5, kindOfTypeString]

/-- Every failure produced by the response finalization carries a `type`
string inside the closed taxonomy. -/
theorem finalize_failure_kind (s : Nat) (b m : String) (f : FailureInfo)
    (h : finalizeResponse s b m = .failure f) :
    (kindOfTypeString f.errType).isSome = true := by
  unfold finalizeResponse at h
  by_cases hr : 400 ≤ s ∧ s < 600
  · simp only [hr, if_pos] at h
    cases h
    exact classify_kind_isSome s m
  · by_cases h2 : s = 204 ∨ b = "" <;> simp [hr, h2] at h

/-- Every failure outcome of `_make_request` carries a `type` string inside
the closed taxonomy. -/
theorem make_request_failure_kind (env : Env) (creds : Creds) :
    ∀ f : FailureInfo, (make_request env creds).outcome = .failure f →
      (kindOfTypeString f.errType).isSome = true := by
  intro f h
  unfold make_request at h
  cases hf : env.first with
  | connError m => rw [hf] at h; simp at h; subst h; simp [kindOfTypeString]
  | timeoutError m => rw [hf] at h; simp at h; subst h; simp [kindOfTypeString]
  | reqError m => rw [hf] at h; simp at h; subst h; simp [kindOfTypeString]
  | resp s b =>
    rw [hf] at h
    by_cases h401 : s = 401
    · subst h401
      by_cases hok : (refresh_access_token creds env.tokenResp).ok
      · cases hs : env.second with
        | connError m =>
          rw [hs] at h; simp [hok] at h; subst h; simp [kindOfTypeString]
        | timeoutError m =>
          rw [hs] at h; simp [hok] at h; subst h; simp [kindOfTypeString]
        | reqError m =>
          rw [hs] at h; simp [hok] at h; subst h; simp [kindOfTypeString]
        | resp s2 b2 =>
          rw [hs] at h; simp [hok] at h
          exact finalize_failure_kind s2 b2 (env.httpMsg s2) f h
      · simp [hok] at h
        exact finalize_failure_kind 401 b (env.httpMsg 401) f h
    · simp [h401] at h
      exact finalize_failure_kind s b (env.httpMsg s) f h

/-- C7: terminal transport outcomes map onto the closed ErrorTaxonomy as the
spec states: within the HTTPError range (400–599, the statuses
`raise_for_status` raises for) 401 denotes authentication, 403 permission,
404 not_found, any 5xx server (carrying the numeric status code), any other
4xx the unknown/api catch-all; connection errors denote network, timeouts
timeout, other request exceptions unknown; every failure's kind lies in the
closed set; and a 204 or empty-body response is a successful empty payload,
not a failure. -/
theorem error_taxonomy_mapping (env : Env) (creds : Creds) :
    (∀ (s : Nat) (b : String), env.first = .resp s b → s ≠ 401 → 400 ≤ s → s < 600 →
      (make_request env creds).outcome = .failure (classifyHttpError s (env.httpMsg s))) ∧
    (∀ (s : Nat) (m : String), 400 ≤ s → s < 600 →
      kindOfTypeString (classifyHttpError s m).errType =
        some (if s = 401 then .authentication else if s = 403 then .permission
          else if s = 404 then .notFound else if 500 ≤ s then .server else .unknown) ∧
      (500 ≤ s → (classifyHttpError s m).status_code = some s)) ∧
    (∀ m : String, env.first = .connError m →
      (make_request env creds).outcome =
        .failure ⟨"Network connection failed: " ++ m, none, "network"⟩ ∧
      kindOfTypeString "network" = some .network) ∧
    (∀ m : String, env.first = .timeoutError m →
      (make_request env creds).outcome = .failure ⟨"Request timed out: " ++ m, none, "timeout"⟩ ∧
      kindOfTypeString "timeout" = some .timeout) ∧
    (∀ m : String, env.first = .reqError m →
      (make_request env creds).outcome = .failure ⟨m, none, "unknown"⟩ ∧
      kindOfTypeString "unknown" = some .unknown) ∧
    (∀ (s : Nat) (b : String), env.first = .resp s b → ¬(400 ≤ s ∧ s < 600) → s ≠ 401 →
      (s = 204 ∨ b = "") →
      (make_request env creds).outcome = .success .emptyDict) ∧
    (∀ f : FailureInfo, (make_request env creds).outcome = .failure f →
      (kindOfTypeString f.errType).isSome = true) := by
  refine ⟨?_, ?_, ?_, ?_, ?_, ?_, make_request_failure_kind env creds⟩
  · intro s b hf hne h4 h6
    unfold make_request
    rw [hf]
    simp [hne, finalizeResponse, h4, h6]
  · intro s m h4 h6
    constructor
    · unfold classifyHttpError
      by_cases h1 : s = 401
      · simp [h1, kindOfTypeString]
      · by_cases h3 : s = 403
        · simp [h1, h3, kindOfTypeString]
        · by_cases hn : s = 404
          · simp [h1, h3, hn, kindOfTypeString]
          · by_cases h5 : 500 ≤ s
            · simp [h1, h3, hn, h5, kindOfTypeString]
            · simp [h1, h3, hn, h5, kindOfTypeString]
    · intro h5
      unfold classifyHttpError
      have h1 : s ≠ 401 := by omega
      have h3 : s ≠ 403 := by omega
      have hn : s ≠ 404 := by omega
      simp [h1, h3, hn, h5]
  · intro m hf
    unfold make_request
    rw [hf]
    exact ⟨rfl, rfl⟩
  · intro m hf
    unfold make_request
    rw [hf]
    exact ⟨rfl, rfl⟩
  · intro m hf
    unfold make_request
    rw [hf]
    exact ⟨rfl, rfl⟩
  · intro s b hf hr hne hemp
    unfold make_request
    rw [hf]
    simp [hne, finalizeResponse, hr, hemp]

def c7Env : Env :=
  ⟨.resp 404 "missing", .resp 200 "x", none, fun _ => "http error"⟩

def c7Creds : Creds := ⟨some "tok", none, none, none⟩

/-- Witness for `error_taxonomy_mapping`: a 404 first response classifies as
a not_found failure carrying status 404. -/
theorem error_taxonomy_mapping_witness :
    (make_request c7Env c7Creds).outcome =
      .failure (classifyHttpError 404 (c7Env.httpMsg 404)) ∧
    kindOfTypeString (classifyHttpError 404 "http error").errType = some .notFound :=
  ⟨(error_taxonomy_mapping c7Env c7Creds).1 404 "missing" rfl (by decide) (by decide) (by decide),
    ((error_taxonomy_mapping c7Env c7Creds).2.1 404 "http error" (by decide) (by decide)).1⟩

/-! ## Claims about the project scan -/

/-- Per-project view of the scan: closed projects contribute no section. -/
def sectionOf (fetch : String → ProjectData) (filt : TaskRecord → Bool)
    (filter_name : String) (q : Nat × Project) : Option String :=
  if q.2.closed then none else some (projectSection fetch filt filter_name q.1 q.2)

/-- Per-project view of the scan: closed projects trigger no fetch. -/
def fetchedOf (q : Nat × Project) : Option String :=
  if q.2.closed then none else some (q.2.id.getD "No ID")

/-- The scan loop produces exactly the concatenated sections and the fetch
log of the non-closed projects, in input order. -/
theorem scanGo_spec (fetch : String → ProjectData) (filt : TaskRecord → Bool)
    (name : String) (ps : List Project) :
    ∀ i : Nat,
    scanGo fetch filt name i ps =
      ⟨strJoin ((ps.enumFrom i).filterMap (sectionOf fetch filt name)),
        (ps.enumFrom i).filterMap fetchedOf⟩ := by
  induction ps with
  | nil => intro i; simp [scanGo, List.enumFrom, strJoin]
  | cons p rest ih =>
    intro i
    rw [scanGo, ih]
    by_cases hc : p.closed <;>
      simp [hc, List.enumFrom, sectionOf, fetchedOf, strJoin]

/-- The scan's fetch log is the ids of the non-closed projects, in input
order. -/
theorem filterMap_fetchedOf (ps : List Project) :
    ∀ i : Nat,
    (ps.enumFrom i).filterMap fetchedOf =
      (ps.filter (fun p => !p.closed)).map (fun p => p.id.getD "No ID") := by
  induction ps with
  | nil => intro i; simp [List.enumFrom]
  | cons p rest ih =>
    intro i
    by_cases hc : p.closed <;>
      simp [List.enumFrom, fetchedOf, hc, ih (i + 1)]

theorem mem_enumFrom_snd {α : Type} {q : Nat × α} :
    ∀ {l : List α} {i : Nat}, q ∈ l.enumFrom i → q.2 ∈ l := by
  intro l
  induction l with
  | nil => intro i h; cases h
  | cons a rest ih =>
    intro i h
    rw [List.enumFrom] at h
    rcases List.mem_cons.mp h with h1 | h2
    · subst h1; exact List.mem_cons_self a rest
    · exact List.mem_cons_of_mem a (ih h2)

/-- Merging the literal chunks of the zero-count section text. -/
theorem zeroSection_chunks (B name : String) :
    B ++ "With " ++ "0" ++ " tasks that are to be '" ++ name ++
      "' in this project :\n" ++ "\n\n" =
    B ++ "With 0 tasks that are to be '" ++ name ++ "' in this project :\n\n\n" := by
  have hW : ∀ X : String,
      "With " ++ ("0" ++ (" tasks that are to be '" ++ X)) =
        "With 0 tasks that are to be '" ++ X := by
    intro X
    rw [← String.append_assoc, ← String.append_assoc]
    have : ("With " ++ "0" ++ " tasks that are to be '" : String) =
        "With 0 tasks that are to be '" := by decide
    rw [this]
  have hC : ("' in this project :\n" ++ "\n\n" : String) =
      "' in this project :\n\n\n" := by decide
  simp only [String.append_assoc]
  rw [hC, hW]

/-- A non-closed project none of whose fetched tasks match the filter is
reported with the zero-count section (whether its task list is empty or all
its tasks fail the filter, the emitted text is the same). -/
theorem projectSection_zero (fetch : String → ProjectData) (filt : TaskRecord → Bool)
    (name : String) (i : Nat) (p : Project)
    (hz : ((fetch (p.id.getD "No ID")).tasks.getD []).all (fun t => !filt t) = true) :
    projectSection fetch filt name i p =
      "Project " ++ toString i ++ ":\n" ++ format_project p ++
      "With 0 tasks that are to be '" ++ name ++ "' in this project :\n\n\n" := by
  unfold projectSection
  cases ht : (fetch (p.id.getD "No ID")).tasks.getD [] with
  | nil => simp [ht]
  | cons t ts =>
    rw [ht] at hz
    have hfil : ((t :: ts).enumFrom 1).filter (fun q => filt q.2) = [] := by
      rw [List.filter_eq_nil_iff]
      intro q hq
      have hmem : q.2 ∈ t :: ts := mem_enumFrom_snd hq
      have := List.all_eq_true.mp hz q.2 hmem
      simp at this
      simp [this]
    have h0 : toString ([] : List (Nat × TaskRecord)).length = "0" := rfl
    simp only [ht, hfil, List.map_nil, strJoin, h0, String.append_empty,
      List.cons_ne_self, if_neg, reduceCtorEq]
    exact zeroSection_chunks _ name

/-- C8: the scan iterates the given project list in input order; a project
with `closed == true` is skipped before any fetch — its id is never fetched
and it contributes nothing to the report, so zero of its tasks are reported;
the fetch log is exactly the ids of the non-closed projects in input order;
the report is the header followed by the non-closed projects' sections in
input order; and every non-closed project none of whose fetched tasks match
still contributes a section with a zero count. -/
theorem scan_order_and_closed_skip (fetch : String → ProjectData)
    (projects : List Project) (filt : TaskRecord → Bool) (name : String)
    (hne : projects ≠ []) :
    (get_project_tasks_by_filter fetch projects filt name).fetched =
      (projects.filter (fun p => !p.closed)).map (fun p => p.id.getD "No ID") ∧
    (get_project_tasks_by_filter fetch projects filt name).text =
      "Found " ++ toString projects.length ++ " projects:\n\n" ++
        strJoin ((projects.enumFrom 1).filterMap (sectionOf fetch filt name)) ∧
    (∀ (i : Nat) (p : Project), (i, p) ∈ projects.enumFrom 1 → p.closed = false →
      ((fetch (p.id.getD "No ID")).tasks.getD []).all (fun t => !filt t) = true →
      projectSection fetch filt name i p ∈
        (projects.enumFrom 1).filterMap (sectionOf fetch filt name) ∧
      projectSection fetch filt name i p =
        "Project " ++ toString i ++ ":\n" ++ format_project p ++
        "With 0 tasks that are to be '" ++ name ++ "' in this project :\n\n\n") := by
  refine ⟨?_, ?_, ?_⟩
  · unfold get_project_tasks_by_filter
    simp only [hne, if_neg]
    rw [scanGo_spec]
    exact filterMap_fetchedOf projects 1
  · unfold get_project_tasks_by_filter
    rw [scanGo_spec]
    simp [hne]
  · intro i p hmem hcl hz
    constructor
    · exact List.mem_filterMap.mpr ⟨(i, p), hmem, by simp [sectionOf, hcl]⟩
    · exact projectSection_zero fetch filt name i p hz

def c8Closed : Project := ⟨some "cl", some "Closed proj", none, none, none, true, true⟩

def c8Open : Project := ⟨some "op", some "Open proj", none, none, none, true, false⟩

def c8Fetch : String → ProjectData := fun _ => ⟨none, some []⟩

/-- Witness for `scan_order_and_closed_skip`: one closed and one open
project — only the open project is fetched, and it is reported with a zero
count. -/
theorem scan_order_and_closed_skip_witness :
    (get_project_tasks_by_filter c8Fetch [c8Closed, c8Open] (fun _ => true) "included").fetched
      = ["op"] ∧
    projectSection c8Fetch (fun _ => true) "included" 2 c8Open =
      "Project " ++ toString 2 ++ ":\n" ++ format_project c8Open ++
      "With 0 tasks that are to be '" ++ "included" ++ "' in this project :\n\n\n" :=
  ⟨((scan_order_and_closed_skip c8Fetch [c8Closed, c8Open] (fun _ => true) "included"
      (by decide)).1).trans (by decide),
   ((scan_order_and_closed_skip c8Fetch [c8Closed, c8Open] (fun _ => true) "included"
      (by decide)).2.2 2 c8Open (by decide) rfl (by decide)).2⟩

def c4ErrFetch : String → ProjectData := fun _ =>
  ⟨some "TickTick server error (500). Please try again later.", none⟩

def c4OkFetch : String → ProjectData := fun _ => ⟨none, some []⟩

def c4P1 : Project := ⟨some "p1", some "First", none, none, none, false, false⟩

def c4P2 : Project := ⟨some "p2", some "Second", none, none, none, false, false⟩

set_option maxRecDepth 10000 in
/-- C4 counterexample: with two open projects and every per-project fetch
failing (`get_project_with_data` returns an error dictionary, which carries
no `tasks` key), the scan's report is *identical* to the report of a scan in
which every fetch succeeds with an empty task list, so the failure cannot
have been surfaced or noted anywhere in the report (the claim's "notes the
failure per project" is false); the scan does continue — both projects are
fetched. -/
theorem scan_failure_not_surfaced_counterexample :
    get_project_tasks_by_filter c4ErrFetch [c4P1, c4P2] (fun _ => true) "included" =
      get_project_tasks_by_filter c4OkFetch [c4P1, c4P2] (fun _ => true) "included" ∧
    (get_project_tasks_by_filter c4ErrFetch [c4P1, c4P2] (fun _ => true) "included").fetched =
      ["p1", "p2"] := by
  constructor <;> decide

/-- C4 amended: when the per-project task fetch fails for a non-closed
project, the scanner silently treats the failure as an empty task list —
the whole scan output depends on the fetch result only through
`project_data.get('tasks', [])`, so the failing project is reported with a
zero count, indistinguishable from a successfully fetched empty project —
and the scan is not aborted: every non-closed project is fetched, in input
order, regardless of failures. -/
theorem scan_failure_silent_continue (fetch fetch' : String → ProjectData)
    (projects : List Project) (filt : TaskRecord → Bool) (name : String)
    (hagree : ∀ pid, (fetch pid).tasks.getD [] = (fetch' pid).tasks.getD []) :
    get_project_tasks_by_filter fetch projects filt name =
      get_project_tasks_by_filter fetch' projects filt name ∧
    (get_project_tasks_by_filter fetch projects filt name).fetched =
      (projects.filter (fun p => !p.closed)).map (fun p => p.id.getD "No ID") := by
  have hsec : ∀ q : Nat × Project,
      sectionOf fetch filt name q = sectionOf fetch' filt name q := by
    intro q
    unfold sectionOf projectSection
    simp only [hagree]
  constructor
  · unfold get_project_tasks_by_filter
    by_cases hne : projects = []
    · simp [hne]
    · simp only [hne, if_neg]
      rw [scanGo_spec, scanGo_spec,
        List.filterMap_congr (fun q _ => hsec q)]
  · by_cases hne : projects = []
    · simp [get_project_tasks_by_filter, hne]
    · unfold get_project_tasks_by_filter
      rw [scanGo_spec]
      simp [hne, filterMap_fetchedOf projects 1]

/-- Witness for `scan_failure_silent_continue`: the all-fetches-fail scan
and the all-fetches-empty scan agree on the tasks view, so their outputs
coincide and both fetch every open project. -/
theorem scan_failure_silent_continue_witness :
    get_project_tasks_by_filter c4ErrFetch [c4P1, c4P2] (fun _ => false) "overdue" =
      get_project_tasks_by_filter c4OkFetch [c4P1, c4P2] (fun _ => false) "overdue" ∧
    (get_project_tasks_by_filter c4ErrFetch [c4P1, c4P2] (fun _ => false) "overdue").fetched =
      (([c4P1, c4P2].filter (fun p => !p.closed)).map (fun p => p.id.getD "No ID")) :=
  scan_failure_silent_continue c4ErrFetch c4OkFetch [c4P1, c4P2] (fun _ => false) "overdue"
    (fun _ => rfl)
